import Mathlib

/-
Verification of the playdemo media playback synchronization engine
(`src/videoctl.h`).  The repository ships only the class header with
declarations and documentation; every function body is modelled from the
specification (spec.md), faithfully to its words.  Times, clock readings
and sample counts are represented as exact rationals; serial generation
tags as integers.
-/

namespace Playdemo

/-- Modelled from the spec: the Clock data model of spec.md §3 — the body of
the Clock structure is absent from src/ (only `Clock *` declarations appear in
videoctl.h).  Fields: value (seconds, last set), rate (playback speed
multiplier), lastUpdatedWallTime, serial (generation tag), paused flag. -/
structure Clock where
  value : ℚ
  rate : ℚ
  lastUpdatedWallTime : ℚ
  serial : ℤ
  paused : Bool
deriving DecidableEq

/-- Modelled from the spec: `get_clock` (declared at videoctl.h:330, body
absent) — reading a paused clock returns the frozen `value`; reading a running
clock returns `value + (now - lastUpdatedWallTime) * rate`. -/
def get_clock (c : Clock) (now : ℚ) : ℚ :=
  if c.paused then c.value else c.value + (now - c.lastUpdatedWallTime) * c.rate

/-- Modelled from the spec: `set_clock_at` (declared at videoctl.h:66, body
absent) — overwrites value and lastUpdatedWallTime with the supplied wall
time, records the serial, keeps the rate. -/
def set_clock_at (c : Clock) (pts : ℚ) (serial : ℤ) (time : ℚ) : Clock :=
  { c with value := pts, lastUpdatedWallTime := time, serial := serial }

/-- Modelled from the spec: `set_clock` (declared at videoctl.h:339, body
absent) — `set(pts, serial)` at the current wall time `now`. -/
def set_clock (c : Clock) (pts : ℚ) (serial : ℤ) (now : ℚ) : Clock :=
  set_clock_at c pts serial now

/-- Modelled from the spec: `sync_clock_to_slave` (declared at videoctl.h:74,
body absent) — if the slave has valid data and the two clocks' readings differ
by more than the drift threshold, re-anchor `c` to the slave's value;
otherwise leave `c` unchanged. -/
def sync_clock_to_slave (c slave : Clock) (slaveValid : Bool) (now threshold : ℚ) : Clock :=
  if slaveValid = true ∧ threshold < |get_clock c now - get_clock slave now| then
    set_clock c (get_clock slave now) slave.serial now
  else
    c

/-- Modelled from the spec: the aggregate pause state touched by
`stream_toggle_pause` — the session-level paused flag together with the video
and external clocks it freezes or unfreezes. -/
structure PauseState where
  paused : Bool
  vidclk : Clock
  extclk : Clock

/-- Freeze or unfreeze a clock at wall time `now`: capture the clock's current
reading first, re-anchor the clock to it, then flip the paused flag. -/
def freeze_clock (c : Clock) (now : ℚ) (newPaused : Bool) : Clock :=
  { set_clock c (get_clock c now) c.serial now with paused := newPaused }

/-- Modelled from the spec: `stream_toggle_pause` (declared at
videoctl.h:394, body absent) — toggles Running↔Paused; the current clock value
is captured before the paused flag is flipped, so the clock reading is
continuous across the transition and frozen while paused. -/
def stream_toggle_pause (s : PauseState) (now : ℚ) : PauseState :=
  { paused := !s.paused
    vidclk := freeze_clock s.vidclk now (!s.paused)
    extclk := freeze_clock s.extclk now (!s.paused) }

/-- Modelled from the spec: `toggle_pause` (declared at videoctl.h:401, body
absent) — the user-facing pause command, which performs the stream toggle. -/
def toggle_pause (s : PauseState) (now : ℚ) : PauseState :=
  stream_toggle_pause s now

/-- Modelled from the spec: the three master-clock selection modes of
spec.md §4.5 (`get_master_sync_type`, declared at videoctl.h:363). -/
inductive SyncType where
  | audioMaster
  | videoMaster
  | externalMaster
deriving DecidableEq

/-- Modelled from the spec: `get_master_clock` (declared at videoctl.h:371,
body absent) — returns the active master clock's `get()`. -/
def get_master_clock (st : SyncType) (audclk vidclk extclk : Clock) (now : ℚ) : ℚ :=
  match st with
  | .audioMaster => get_clock audclk now
  | .videoMaster => get_clock vidclk now
  | .externalMaster => get_clock extclk now

/-- The sync threshold is never tighter than 40 ms (spec.md §4.5: thresholds
scale with duration, "never tighter than ~40ms"). -/
def AV_SYNC_THRESHOLD_MIN : ℚ := 1/25

/-- Modelled from the spec: the core of `compute_target_delay` (declared at
videoctl.h:417, body absent), as a function of the nominal delay and the
drift `diff = videoClock.get() - masterClock.get()`.  The sync threshold
scales with the duration, clamped between 40 ms and `syncThresholdMax`.  If
`diff` is at or below the negative threshold the delay is shrunk toward zero
down to a floor of 0; if `diff` is at or above the threshold the delay is
stretched upward; both adjustments are bounded by the configurable maximum
correction per frame `maxCorrection`. -/
def compute_target_delay_core (delay diff syncThresholdMax maxCorrection : ℚ) : ℚ :=
  if diff ≤ -(max AV_SYNC_THRESHOLD_MIN (min syncThresholdMax delay)) then
    max 0 (delay - min maxCorrection (-diff))
  else if max AV_SYNC_THRESHOLD_MIN (min syncThresholdMax delay) ≤ diff then
    delay + min maxCorrection diff
  else
    delay

/-- Modelled from the spec: `compute_target_delay` (declared at
videoctl.h:417, body absent) — in video-master mode the nominal delay is
returned unchanged; otherwise the drift of the video clock against the master
clock drives the correction of `compute_target_delay_core`. -/
def compute_target_delay (delay : ℚ) (st : SyncType) (audclk vidclk extclk : Clock)
    (now syncThresholdMax maxCorrection : ℚ) : ℚ :=
  if st = SyncType.videoMaster then
    delay
  else
    compute_target_delay_core delay
      (get_clock vidclk now - get_master_clock st audclk vidclk extclk now)
      syncThresholdMax maxCorrection

/-- Modelled from the spec: the Frame data model of spec.md §3 (timestamp,
duration, serial generation tag). -/
structure Frame where
  pts : ℚ
  duration : ℚ
  serial : ℤ
deriving DecidableEq

/-- Modelled from the spec: `vp_duration` (declared at videoctl.h:427, body
absent) — the gap from the current frame's pts to the next frame's pts,
replaced by the stream's average frame duration (carried in `vp.duration`)
when the gap is non-positive or exceeds the sanity bound
`max_frame_duration`. -/
def vp_duration (max_frame_duration : ℚ) (vp nextvp : Frame) : ℚ :=
  let d := nextvp.pts - vp.pts
  if d ≤ 0 ∨ max_frame_duration < d then vp.duration else d

/-- Modelled from the spec: `synchronize_audio` (declared at videoctl.h:187,
body absent).  Inputs: whether audio is the master clock, the decoded sample
count, the measured drift of the audio clock against the master, the small
correction threshold, the hard no-sync ceiling, the sample rate, the running
count of consecutive over-threshold measurements and the hysteresis minimum.
Output: (compensated sample count, new consecutive-measurement count,
whether an immediate clock re-anchor was triggered).  When audio is master
the count is returned unchanged; drift at or beyond the hard ceiling
triggers a re-anchor instead of gradual correction; below the small
threshold the hysteresis count resets; otherwise, once the drift has stayed
over threshold for `minCount` consecutive measurements, the sample count is
stretched or compressed, clamped to ±10 %. -/
def synchronize_audio (audioIsMaster : Bool) (nb_samples drift threshold hardCeiling rate : ℚ)
    (overCount minCount : ℕ) : ℚ × ℕ × Bool :=
  if audioIsMaster then
    (nb_samples, overCount, false)
  else if hardCeiling ≤ |drift| then
    (nb_samples, 0, true)
  else if |drift| < threshold then
    (nb_samples, 0, false)
  else
    let cnt := overCount + 1
    if cnt < minCount then
      (nb_samples, cnt, false)
    else
      (max (nb_samples * (9/10))
        (min (nb_samples * (11/10)) (nb_samples + drift * rate)), cnt, false)

/-- Result of a queue operation (spec.md §4.2): success, `Aborted` after
shutdown, or `Empty` for a non-blocking pop on an empty queue. -/
inductive QResult (α : Type) where
  | ok : α → QResult α
  | Aborted : QResult α
  | Empty : QResult α
deriving DecidableEq

/-- Modelled from the spec: BoundedQueue of spec.md §3/§4.2 (the
PacketQueue/FrameQueue bodies are absent from src/) — a serial-tagged FIFO
with an abort flag.  The blocking behaviour of push/pop is modelled by its
observable outcome: the value transferred, or `Aborted`/`Empty`. -/
structure BQueue (α : Type) where
  items : List α
  serial : ℤ
  aborted : Bool

/-- Modelled from the spec: `push(item)` fails with `Aborted` if the queue has
been shut down; otherwise inserts at the tail. -/
def BQueue.push (q : BQueue α) (x : α) : QResult (BQueue α) :=
  if q.aborted then .Aborted else .ok { q with items := q.items ++ [x] }

/-- Modelled from the spec: `pop` fails with `Aborted` after shutdown, with
`Empty` when no item is available, and otherwise removes the head. -/
def BQueue.pop (q : BQueue α) : QResult (α × BQueue α) :=
  if q.aborted then .Aborted
  else
    match q.items with
    | [] => .Empty
    | x :: rest => .ok (x, { q with items := rest })

/-- Modelled from the spec: `abort()` — terminal state, wakes all waiters
permanently, no further pushes accepted. -/
def BQueue.abort (q : BQueue α) : BQueue α :=
  { q with aborted := true }

/-- Modelled from the spec: `flush()` — drains contents and bumps `serial`
(used on seek). -/
def BQueue.flush (q : BQueue α) : BQueue α :=
  { q with items := [], serial := q.serial + 1 }

/-- Push a whole list of items in order, stopping at the first failure. -/
def BQueue.pushAll (q : BQueue α) : List α → QResult (BQueue α)
  | [] => .ok q
  | x :: xs =>
    match q.push x with
    | .ok q' => q'.pushAll xs
    | .Aborted => .Aborted
    | .Empty => .Empty

/-- Pop repeatedly (at most `fuel` times), collecting the items the consumer
observes, in order, until the queue is empty or aborted. -/
def BQueue.popAllFuel : ℕ → BQueue α → List α
  | 0, _ => []
  | n + 1, q =>
    match q.pop with
    | .ok (x, q') => x :: BQueue.popAllFuel n q'
    | .Aborted => []
    | .Empty => []

/-- Everything the consumer observes from the queue, in order. -/
def BQueue.popAll (q : BQueue α) : List α :=
  BQueue.popAllFuel q.items.length q

/-- Modelled from the spec: the stale-frame check of `video_refresh`
(declared at videoctl.h:279, body absent) — the refresh path skips every
queued frame whose serial differs from the frame queue's current serial and
displays the first frame of the current generation, if any. -/
def video_refresh_pick (queueSerial : ℤ) : List Frame → Option Frame
  | [] => none
  | f :: rest =>
    if f.serial = queueSerial then some f else video_refresh_pick queueSerial rest

/-- Modelled from the spec: the stale-frame check of `audio_decode_frame`
(declared at videoctl.h:47, body absent) — the audio pull path discards every
decoded audio frame whose serial differs from the queue's current serial and
hands the first current-generation frame to the audio output, if any. -/
def audio_decode_frame_pick (queueSerial : ℤ) : List Frame → Option Frame
  | [] => none
  | f :: rest =>
    if f.serial ≠ queueSerial then audio_decode_frame_pick queueSerial rest else some f

/-- Modelled from the spec: the observable outcome of `StartPlay`
(declared at videoctl.h:39) / `stream_open` (declared at videoctl.h:247),
whose bodies are absent from src/ — whether the call reports success, whether
an error notification is emitted, and how many worker threads are started. -/
structure PlayOutcome where
  success : Bool
  errorEmitted : Bool
  threadsStarted : ℕ
deriving DecidableEq

/-- Modelled from the spec: `StartPlay` — when the media source cannot be
opened the failure is fatal: StartPlay returns false, an error notification
is emitted and no worker threads are started; on success the read, decode
and refresh workers are started. -/
def StartPlay (openOk : Bool) (nDecodeWorkers : ℕ) : PlayOutcome :=
  if openOk then
    { success := true, errorEmitted := false, threadsStarted := nDecodeWorkers + 2 }
  else
    { success := false, errorEmitted := true, threadsStarted := 0 }

/-- Modelled from the spec: the DecodeWorker loop of spec.md §4.3 (the
decode-thread bodies are absent from src/).  Each packet's decode outcome is
supplied by the external decoder as `some frame` or `none` (decode failure);
the worker pushes the successfully decoded frames in order and absorbs every
per-packet failure — the Bool records whether any error was propagated out of
the worker (it never is). -/
def decode_worker : List (Option Frame) → List Frame × Bool
  | [] => ([], false)
  | some f :: rest => ((decode_worker rest).1.cons f, (decode_worker rest).2)
  | none :: rest => decode_worker rest

/-- Modelled from the spec: the singleton state behind `VideoCtl::GetInstance`
(declared at videoctl.h:29, body absent) — the static `m_pInstance` pointer
(videoctl.h:499) together with a count of constructor invocations. -/
structure SingletonState where
  m_pInstance : Option ℕ
  constructed : ℕ
deriving DecidableEq

/-- Modelled from the spec: `VideoCtl::GetInstance` — on first call the
private constructor creates the unique instance and stores it in
`m_pInstance`; every later call returns the stored instance unchanged. -/
def GetInstance (st : SingletonState) : ℕ × SingletonState :=
  match st.m_pInstance with
  | some i => (i, st)
  | none => (st.constructed, { m_pInstance := some st.constructed, constructed := st.constructed + 1 })

/-- The singleton state of a freshly loaded process: no instance yet. -/
def initialSingleton : SingletonState :=
  { m_pInstance := none, constructed := 0 }

/-- Iterate `GetInstance` `n` times from a state, returning the final state. -/
def getInstanceIter : ℕ → SingletonState → SingletonState
  | 0, st => st
  | n + 1, st => getInstanceIter n (GetInstance st).2

/-! ### Helper lemmas -/

theorem compute_target_delay_core_bounds (delay diff thrMax mc : ℚ)
    (hd : 0 < delay) (hmc : 0 < mc) (hthr : AV_SYNC_THRESHOLD_MIN ≤ thrMax) :
    (diff ≤ -thrMax → 0 ≤ compute_target_delay_core delay diff thrMax mc ∧
        compute_target_delay_core delay diff thrMax mc < delay) ∧
    (thrMax ≤ diff → delay < compute_target_delay_core delay diff thrMax mc) ∧
    |compute_target_delay_core delay diff thrMax mc - delay| ≤ mc := by
  have hMINpos : (0 : ℚ) < AV_SYNC_THRESHOLD_MIN := by
    unfold AV_SYNC_THRESHOLD_MIN; norm_num
  unfold compute_target_delay_core
  set s := max AV_SYNC_THRESHOLD_MIN (min thrMax delay) with hs
  have hsle : s ≤ thrMax := max_le hthr (min_le_left _ _)
  have hspos : 0 < s := lt_of_lt_of_le hMINpos (le_max_left _ _)
  split_ifs with h1 h2
  · -- video lagging: delay shrunk toward zero, floored at 0
    have hm1 : min mc (-diff) ≤ mc := min_le_left _ _
    have hm2 : 0 < min mc (-diff) := lt_min hmc (by linarith)
    refine ⟨fun _ => ⟨le_max_left _ _, ?_⟩, fun h => by linarith, ?_⟩
    · exact max_lt hd (by linarith)
    · rw [abs_le]
      constructor
      · have : delay - mc ≤ delay - min mc (-diff) := by linarith
        have h2' : delay - min mc (-diff) ≤ max 0 (delay - min mc (-diff)) :=
          le_max_right _ _
        linarith
      · have : max 0 (delay - min mc (-diff)) ≤ delay :=
          max_le (le_of_lt hd) (by linarith)
        linarith
  · -- video ahead: delay stretched upward, bounded by the correction cap
    have hm1 : min mc diff ≤ mc := min_le_left _ _
    have hm2 : 0 < min mc diff := lt_min hmc (by linarith)
    refine ⟨fun h => by linarith, fun _ => by linarith, ?_⟩
    rw [abs_le]; constructor <;> linarith
  · -- drift within threshold: delay unchanged
    refine ⟨fun h => by linarith, fun h => by linarith, ?_⟩
    simpa using hmc.le

theorem popAllFuel_of_items (s : ℤ) :
    ∀ items : List α, BQueue.popAllFuel items.length ⟨items, s, false⟩ = items := by
  intro items
  induction items with
  | nil => rfl
  | cons x rest ih =>
    simp only [List.length_cons, BQueue.popAllFuel, BQueue.pop]
    simpa using ih

theorem pushAll_of_not_aborted :
    ∀ (xs : List α) (items : List α) (s : ℤ),
      BQueue.pushAll ⟨items, s, false⟩ xs = .ok ⟨items ++ xs, s, false⟩ := by
  intro xs
  induction xs with
  | nil => intro items s; simp [BQueue.pushAll]
  | cons x rest ih =>
    intro items s
    simp only [BQueue.pushAll, BQueue.push, if_neg Bool.false_ne_true]
    simpa using ih (items ++ [x]) s

theorem decode_worker_no_error : ∀ ps : List (Option Frame), (decode_worker ps).2 = false := by
  intro ps
  induction ps with
  | nil => rfl
  | cons p rest ih => cases p <;> simpa [decode_worker] using ih

theorem get_clock_freeze (c : Clock) (now : ℚ) (p : Bool) (t : ℚ) (hp : p = true ∨ t = now) :
    get_clock (freeze_clock c now p) t = get_clock c now := by
  rcases hp with hp | hp <;> subst hp <;>
    simp [freeze_clock, set_clock, set_clock_at, get_clock]

theorem getInstanceIter_fixed (i : ℕ) :
    ∀ n : ℕ, getInstanceIter n ⟨some i, 1⟩ = ⟨some i, 1⟩ := by
  intro n
  induction n with
  | zero => rfl
  | succ n ih => simpa [getInstanceIter, GetInstance] using ih

/-! ### Claim theorems -/

/-- C2: reading a paused clock returns the frozen stored value; reading a
running clock returns `value + (now - lastUpdatedWallTime) * rate`; and
`set_clock(c, pts, s)` immediately followed by `get_clock` with zero elapsed
wall time returns exactly `pts`. -/
theorem clock_get_set_spec (c : Clock) (now pts : ℚ) (s : ℤ) :
    (c.paused = true → get_clock c now = c.value) ∧
    (c.paused = false →
        get_clock c now = c.value + (now - c.lastUpdatedWallTime) * c.rate) ∧
    get_clock (set_clock c pts s now) now = pts := by
  refine ⟨fun h => by simp [get_clock, h], fun h => by simp [get_clock, h], ?_⟩
  unfold get_clock set_clock set_clock_at
  split <;> simp

/-- C2 witness: concrete evaluations of both clock-reading modes and of
set-then-get at zero elapsed time. -/
theorem clock_get_set_spec_witness :
    get_clock ⟨3, 2, 1, 0, true⟩ 7 = (3 : ℚ) ∧
    get_clock ⟨3, 2, 1, 0, false⟩ 7 = 3 + (7 - 1) * 2 ∧
    get_clock (set_clock ⟨3, 2, 1, 0, false⟩ 5 4 7) 7 = 5 :=
  ⟨(clock_get_set_spec ⟨3, 2, 1, 0, true⟩ 7 5 4).1 rfl,
   (clock_get_set_spec ⟨3, 2, 1, 0, false⟩ 7 5 4).2.1 rfl,
   (clock_get_set_spec ⟨3, 2, 1, 0, false⟩ 7 5 4).2.2⟩

/-- C6: `vp_duration` returns the next frame's pts minus the current frame's
pts, except that a non-positive gap or a gap exceeding the sanity bound makes
it return the stream's average frame duration instead. -/
theorem vp_duration_spec (maxd : ℚ) (vp nextvp : Frame) :
    (0 < nextvp.pts - vp.pts ∧ nextvp.pts - vp.pts ≤ maxd →
        vp_duration maxd vp nextvp = nextvp.pts - vp.pts) ∧
    (nextvp.pts - vp.pts ≤ 0 ∨ maxd < nextvp.pts - vp.pts →
        vp_duration maxd vp nextvp = vp.duration) := by
  unfold vp_duration
  constructor
  · rintro ⟨h1, h2⟩
    rw [if_neg]
    push_neg
    exact ⟨h1, h2⟩
  · intro h
    rw [if_pos h]

/-- C6 witness: a sane gap is returned as is; a non-positive gap falls back to
the average frame duration. -/
theorem vp_duration_spec_witness :
    vp_duration 10 ⟨1, 1/25, 0⟩ ⟨3/2, 1/25, 0⟩ = 3/2 - 1 ∧
    vp_duration 10 ⟨1, 1/25, 0⟩ ⟨1, 1/25, 0⟩ = 1/25 :=
  ⟨(vp_duration_spec 10 ⟨1, 1/25, 0⟩ ⟨3/2, 1/25, 0⟩).1 (by norm_num),
   (vp_duration_spec 10 ⟨1, 1/25, 0⟩ ⟨1, 1/25, 0⟩).2 (by norm_num)⟩

/-- C7: `sync_clock_to_slave` re-anchors `c` to the slave's value exactly when
the slave has valid data and the two readings differ by more than the drift
threshold; otherwise the clock is left unchanged. -/
theorem sync_clock_to_slave_spec (c slave : Clock) (v : Bool) (now thr : ℚ) :
    (v = true ∧ thr < |get_clock c now - get_clock slave now| →
        get_clock (sync_clock_to_slave c slave v now thr) now = get_clock slave now) ∧
    (¬(v = true ∧ thr < |get_clock c now - get_clock slave now|) →
        sync_clock_to_slave c slave v now thr = c) := by
  constructor
  · intro h
    unfold sync_clock_to_slave
    rw [if_pos h]
    unfold get_clock set_clock set_clock_at
    split <;> simp
  · intro h
    unfold sync_clock_to_slave
    rw [if_neg h]

/-- C7 witness: a 20-second divergence with a 10-second threshold re-anchors;
the same clocks with an invalid slave stay untouched. -/
theorem sync_clock_to_slave_spec_witness :
    get_clock (sync_clock_to_slave ⟨30, 1, 0, 0, true⟩ ⟨10, 1, 0, 0, true⟩ true 0 10) 0 =
      get_clock ⟨10, 1, 0, 0, true⟩ 0 ∧
    sync_clock_to_slave ⟨30, 1, 0, 0, true⟩ ⟨10, 1, 0, 0, true⟩ false 0 10 =
      ⟨30, 1, 0, 0, true⟩ :=
  ⟨(sync_clock_to_slave_spec ⟨30, 1, 0, 0, true⟩ ⟨10, 1, 0, 0, true⟩ true 0 10).1
      ⟨rfl, by norm_num [get_clock]⟩,
   (sync_clock_to_slave_spec ⟨30, 1, 0, 0, true⟩ ⟨10, 1, 0, 0, true⟩ false 0 10).2
      (by simp)⟩

/-- C1: when the sync mode is not video-master, `compute_target_delay`
drives the correction by `diff = videoClock.get() - masterClock.get()`: at or
below `-syncThresholdMax` the delay is reduced toward zero with a floor of 0,
at or above `syncThresholdMax` it is increased above the nominal duration,
the adjustment is bounded in both directions by the maximum correction per
frame, and concretely with masterClock = 10, videoClock = 9.8, threshold 0.1
and frame duration 0.04 the returned delay is below the nominal duration. -/
theorem compute_target_delay_spec (delay thrMax mc now : ℚ) (st : SyncType)
    (audclk vidclk extclk : Clock)
    (hst : st ≠ SyncType.videoMaster) (hd : 0 < delay) (hmc : 0 < mc)
    (hthr : AV_SYNC_THRESHOLD_MIN ≤ thrMax) :
    (get_clock vidclk now - get_master_clock st audclk vidclk extclk now ≤ -thrMax →
        0 ≤ compute_target_delay delay st audclk vidclk extclk now thrMax mc ∧
        compute_target_delay delay st audclk vidclk extclk now thrMax mc < delay) ∧
    (thrMax ≤ get_clock vidclk now - get_master_clock st audclk vidclk extclk now →
        delay < compute_target_delay delay st audclk vidclk extclk now thrMax mc) ∧
    |compute_target_delay delay st audclk vidclk extclk now thrMax mc - delay| ≤ mc ∧
    compute_target_delay (1/25) SyncType.audioMaster ⟨10, 1, 0, 0, true⟩
        ⟨49/5, 1, 0, 0, true⟩ ⟨0, 1, 0, 0, true⟩ 0 (1/10) mc < 1/25 := by
  have hcore := compute_target_delay_core_bounds delay
      (get_clock vidclk now - get_master_clock st audclk vidclk extclk now) thrMax mc hd hmc hthr
  have hconc := compute_target_delay_core_bounds (1/25) (-(1/5)) (1/10) mc (by norm_num) hmc
      (by norm_num [AV_SYNC_THRESHOLD_MIN])
  unfold compute_target_delay
  rw [if_neg hst]
  refine ⟨hcore.1, hcore.2.1, hcore.2.2, ?_⟩
  rw [if_neg (by decide : ¬(SyncType.audioMaster = SyncType.videoMaster))]
  have hdiff : get_clock (⟨49/5, 1, 0, 0, true⟩ : Clock) 0 -
      get_master_clock SyncType.audioMaster ⟨10, 1, 0, 0, true⟩ ⟨49/5, 1, 0, 0, true⟩
        ⟨0, 1, 0, 0, true⟩ 0 = -(1/5) := by
    norm_num [get_clock, get_master_clock]
  rw [hdiff]
  exact (hconc.1 (by norm_num)).2

/-- C1 witness: the lagging-video example of the spec evaluated at a concrete
maximum correction of 0.1. -/
theorem compute_target_delay_spec_witness :
    compute_target_delay (1/25) SyncType.audioMaster ⟨10, 1, 0, 0, true⟩
        ⟨49/5, 1, 0, 0, true⟩ ⟨0, 1, 0, 0, true⟩ 0 (1/10) (1/10) < 1/25 :=
  (compute_target_delay_spec (1/25) (1/10) (1/10) 0 SyncType.audioMaster
      ⟨10, 1, 0, 0, true⟩ ⟨49/5, 1, 0, 0, true⟩ ⟨0, 1, 0, 0, true⟩
      (by decide) (by norm_num) (by norm_num)
      (by norm_num [AV_SYNC_THRESHOLD_MIN])).2.2.2

/-- C3: a frame whose serial differs from its queue's current serial is never
the one displayed by the video refresh path, and never the one handed to the
audio output: any frame those consumers select carries the current serial. -/
theorem stale_serial_discarded (q : ℤ) (frames : List Frame) (f : Frame) :
    (video_refresh_pick q frames = some f → f.serial = q) ∧
    (audio_decode_frame_pick q frames = some f → f.serial = q) := by
  induction frames with
  | nil =>
    exact ⟨fun h => by simp [video_refresh_pick] at h,
           fun h => by simp [audio_decode_frame_pick] at h⟩
  | cons g rest ih =>
    refine ⟨?_, ?_⟩
    · intro h
      simp only [video_refresh_pick] at h
      by_cases hg : g.serial = q
      · rw [if_pos hg] at h
        exact (Option.some.inj h) ▸ hg
      · rw [if_neg hg] at h
        exact ih.1 h
    · intro h
      simp only [audio_decode_frame_pick] at h
      by_cases hg : g.serial ≠ q
      · rw [if_pos hg] at h
        exact ih.2 h
      · rw [if_neg hg] at h
        exact (Option.some.inj h) ▸ not_not.mp hg

/-- C3 witness: with current serial 1, a queue whose head carries stale
serial 0 yields a displayed frame with serial 1 on both consumer paths. -/
theorem stale_serial_discarded_witness :
    (⟨2, 1, 1⟩ : Frame).serial = 1 ∧ (⟨3, 1, 1⟩ : Frame).serial = 1 :=
  ⟨(stale_serial_discarded 1 [⟨1, 1, 0⟩, ⟨2, 1, 1⟩] ⟨2, 1, 1⟩).1 rfl,
   (stale_serial_discarded 1 [⟨1, 1, 0⟩, ⟨3, 1, 1⟩] ⟨3, 1, 1⟩).2 rfl⟩

/-- C4: for every sequence of pushes on a live BoundedQueue the consumer pops
exactly the pushed items in push order, and after `abort()` every pop returns
`Aborted` instead of blocking while every push is rejected with `Aborted`. -/
theorem bqueue_fifo_and_abort (α : Type) (q : BQueue α) (xs : List α) (x : α)
    (h : q.aborted = false) :
    BQueue.pushAll q xs = .ok ⟨q.items ++ xs, q.serial, false⟩ ∧
    BQueue.popAll ⟨q.items ++ xs, q.serial, false⟩ = q.items ++ xs ∧
    (BQueue.abort q).pop = .Aborted ∧
    (BQueue.abort q).push x = .Aborted := by
  obtain ⟨items, s, ab⟩ := q
  subst h
  refine ⟨pushAll_of_not_aborted xs items s, ?_, ?_, ?_⟩
  · exact popAllFuel_of_items s (items ++ xs)
  · simp [BQueue.pop, BQueue.abort]
  · simp [BQueue.push, BQueue.abort]

/-- C4 witness: three pushed naturals are popped in push order, and the
aborted queue rejects both pop and push. -/
theorem bqueue_fifo_and_abort_witness :
    BQueue.pushAll (⟨[], 0, false⟩ : BQueue ℕ) [1, 2, 3] = .ok ⟨[] ++ [1, 2, 3], 0, false⟩ ∧
    BQueue.popAll (⟨[] ++ [1, 2, 3], 0, false⟩ : BQueue ℕ) = [] ++ [1, 2, 3] ∧
    (BQueue.abort (⟨[], 0, false⟩ : BQueue ℕ)).pop = .Aborted ∧
    (BQueue.abort (⟨[], 0, false⟩ : BQueue ℕ)).push 7 = .Aborted :=
  bqueue_fifo_and_abort ℕ ⟨[], 0, false⟩ [1, 2, 3] 7 rfl

/-- C5: `synchronize_audio` leaves the sample count unchanged when audio is
the master clock; when audio is not the master and the drift has stayed over
the small threshold for the hysteresis minimum of consecutive measurements
while remaining under the hard ceiling, the compensated count differs from
the decoded count by at most ±10 %; drift at or beyond the hard ceiling
triggers an immediate re-anchor with no gradual correction. -/
theorem synchronize_audio_spec (master : Bool) (nb drift thr ceil rate : ℚ)
    (oc minc : ℕ) (hnb : 0 ≤ nb) :
    (master = true →
        synchronize_audio master nb drift thr ceil rate oc minc = (nb, oc, false)) ∧
    (master = false → ceil ≤ |drift| →
        synchronize_audio master nb drift thr ceil rate oc minc = (nb, 0, true)) ∧
    (master = false → |drift| < ceil → thr ≤ |drift| → minc ≤ oc + 1 →
        |(synchronize_audio master nb drift thr ceil rate oc minc).1 - nb| ≤ nb / 10 ∧
        (synchronize_audio master nb drift thr ceil rate oc minc).2.2 = false) := by
  refine ⟨fun h => by simp [synchronize_audio, h], fun h hc => by simp [synchronize_audio, h, hc],
    fun h hc ht hcnt => ?_⟩
  unfold synchronize_audio
  rw [if_neg (by simp [h]), if_neg (not_le.mpr hc), if_neg (not_lt.mpr ht),
    if_neg (not_lt.mpr hcnt)]
  refine ⟨?_, rfl⟩
  have hlow : nb * (9/10) ≤
      max (nb * (9/10)) (min (nb * (11/10)) (nb + drift * rate)) := le_max_left _ _
  have hhigh : max (nb * (9/10)) (min (nb * (11/10)) (nb + drift * rate)) ≤ nb * (11/10) :=
    max_le (by linarith) (min_le_left _ _)
  rw [abs_le]
  constructor <;> simp only [] <;> linarith

/-- C5 witness: audio-master leaves 1000 samples unchanged; a 0.5 s drift at
sample rate 100 after three consecutive over-threshold measurements yields a
compensated count within ±10 % of 1000; a 20 s drift re-anchors at once. -/
theorem synchronize_audio_spec_witness :
    synchronize_audio true 1000 (1/2) (1/10) 10 100 2 3 = (1000, 2, false) ∧
    |(synchronize_audio false 1000 (1/2) (1/10) 10 100 2 3).1 - 1000| ≤ 1000 / 10 ∧
    synchronize_audio false 1000 20 (1/10) 10 100 2 3 = (1000, 0, true) :=
  ⟨(synchronize_audio_spec true 1000 (1/2) (1/10) 10 100 2 3 (by norm_num)).1 rfl,
   ((synchronize_audio_spec false 1000 (1/2) (1/10) 10 100 2 3 (by norm_num)).2.2
      rfl (by norm_num [abs_lt]) (by norm_num [le_abs]) (by norm_num)).1,
   (synchronize_audio_spec false 1000 20 (1/10) 10 100 2 3 (by norm_num)).2.1
      rfl (by norm_num)⟩

/-- C8: toggling pause flips the Running/Paused state and freezes or
unfreezes the clocks at the instant of the transition: the clock reading
immediately after the toggle equals the reading immediately before, and after
pausing from the running state the clock reading at any later time still
equals the reading captured at the transition — the clock does not advance
while paused. -/
theorem toggle_pause_spec (s : PauseState) (now t : ℚ) :
    (toggle_pause s now).paused = !s.paused ∧
    get_clock (toggle_pause s now).vidclk now = get_clock s.vidclk now ∧
    get_clock (toggle_pause s now).extclk now = get_clock s.extclk now ∧
    (s.paused = false →
        get_clock (toggle_pause s now).vidclk t = get_clock s.vidclk now ∧
        get_clock (toggle_pause s now).extclk t = get_clock s.extclk now) := by
  refine ⟨rfl, get_clock_freeze s.vidclk now (!s.paused) now (Or.inr rfl),
    get_clock_freeze s.extclk now (!s.paused) now (Or.inr rfl), fun h => ?_⟩
  have hp : (!s.paused) = true := by rw [h]; rfl
  exact ⟨get_clock_freeze s.vidclk now (!s.paused) t (Or.inl hp),
    get_clock_freeze s.extclk now (!s.paused) t (Or.inl hp)⟩

/-- C8 witness: pausing a running clock of value 2, rate 1, anchored at wall
time 0, at wall time 3, yields the reading 5 both at the transition instant
and 7 seconds later. -/
theorem toggle_pause_spec_witness :
    (toggle_pause ⟨false, ⟨2, 1, 0, 0, false⟩, ⟨5, 1, 0, 0, false⟩⟩ 3).paused = true ∧
    get_clock (toggle_pause ⟨false, ⟨2, 1, 0, 0, false⟩, ⟨5, 1, 0, 0, false⟩⟩ 3).vidclk 10 =
      get_clock ⟨2, 1, 0, 0, false⟩ 3 :=
  ⟨(toggle_pause_spec ⟨false, ⟨2, 1, 0, 0, false⟩, ⟨5, 1, 0, 0, false⟩⟩ 3 10).1,
   ((toggle_pause_spec ⟨false, ⟨2, 1, 0, 0, false⟩, ⟨5, 1, 0, 0, false⟩⟩ 3 10).2.2.2 rfl).1⟩

/-- C9: a media source that cannot be opened is fatal to the session —
StartPlay reports failure, emits the error notification and starts no worker
threads — while a single packet that fails to decode is absorbed at the
decode boundary: the packet is skipped, the remaining stream is processed
unchanged, and no error ever propagates out of the decode worker. -/
theorem open_fatal_decode_absorbed (openOk : Bool) (nw : ℕ) (rest : List (Option Frame)) :
    (openOk = false → StartPlay openOk nw =
        { success := false, errorEmitted := true, threadsStarted := 0 }) ∧
    (openOk = true → (StartPlay openOk nw).success = true ∧
        (StartPlay openOk nw).errorEmitted = false) ∧
    decode_worker (none :: rest) = decode_worker rest ∧
    (decode_worker rest).2 = false := by
  exact ⟨fun h => by simp [StartPlay, h], fun h => by simp [StartPlay, h], rfl,
    decode_worker_no_error rest⟩

/-- C9 witness: a failed open yields a failed, thread-less session with the
error surfaced; a corrupt first packet is skipped and no error is raised. -/
theorem open_fatal_decode_absorbed_witness :
    StartPlay false 2 = { success := false, errorEmitted := true, threadsStarted := 0 } ∧
    decode_worker [none, some ⟨1, 1, 0⟩] = decode_worker [some ⟨1, 1, 0⟩] ∧
    (decode_worker [some ⟨1, 1, 0⟩]).2 = false :=
  ⟨(open_fatal_decode_absorbed false 2 []).1 rfl,
   (open_fatal_decode_absorbed false 2 [some ⟨1, 1, 0⟩]).2.2.1,
   (open_fatal_decode_absorbed false 2 [some ⟨1, 1, 0⟩]).2.2.2⟩

/-- C10: VideoCtl is a process-wide singleton: starting from the fresh
process state, every call to GetInstance — the (n+1)-th call after any n
earlier ones — returns the same non-null instance, and the private
constructor has run at most once, so at most one playback controller ever
exists. -/
theorem videoctl_singleton (n : ℕ) :
    (GetInstance (getInstanceIter n initialSingleton)).1 = 0 ∧
    (GetInstance (getInstanceIter n initialSingleton)).2.m_pInstance = some 0 ∧
    (getInstanceIter n initialSingleton).constructed ≤ 1 := by
  cases n with
  | zero => exact ⟨rfl, rfl, Nat.zero_le 1⟩
  | succ n =>
    have h1 : getInstanceIter (n + 1) initialSingleton = ⟨some 0, 1⟩ :=
      getInstanceIter_fixed 0 n
    rw [h1]
    exact ⟨rfl, rfl, le_refl 1⟩

/-- C10 witness: the sixth call to GetInstance still returns instance 0 with
exactly one construction having occurred. -/
theorem videoctl_singleton_witness :
    (GetInstance (getInstanceIter 5 initialSingleton)).1 = 0 ∧
    (GetInstance (getInstanceIter 5 initialSingleton)).2.m_pInstance = some 0 ∧
    (getInstanceIter 5 initialSingleton).constructed ≤ 1 :=
  videoctl_singleton 5

end Playdemo
